import Mathlib

/-
Verification of the pharmacy POS / inventory-ledger core of the `dorixona`
repository (NestJS + Prisma).  The Lean definitions below are a shallow
embedding of `SalesService` (sales.service.ts) and `InventoryService`
(inventory.service.ts): the Prisma-held relational state is an explicit `DB`
record, each service method becomes a function `DB → ... → Except AppError DB`
(errors thrown before/inside the transaction abort with no state change, which
matches the all-or-nothing transaction semantics of the source), and JS numbers
are modelled as exact rationals (`ℚ`) for money and integers (`ℤ`) for counts,
with `Math.round` modelled exactly (round half toward +∞).
-/

namespace Dorixona

/-- Timestamp with server-local calendar components, as read off a JS `Date`
via `getFullYear` / `getMonth` / `getDate` (plus time of day, which the
same-day check ignores). -/
structure DateTime where
  year : Int
  month : Int
  day : Int
  hour : Int
  minute : Int
deriving DecidableEq, Repr

/-- Prisma enum `stock_movement_type`. -/
inductive StockMovementType where
  | IN
  | OUT
  | ADJUSTMENT
  | TRANSFER
  | RETURN
deriving DecidableEq, Repr

/-- Prisma enum `sale_status`. -/
inductive SaleStatus where
  | PENDING
  | COMPLETED
  | CANCELLED
  | REFUNDED
deriving DecidableEq, Repr

/-- Prisma enum `payment_method`. -/
inductive PaymentMethod where
  | CASH
  | CARD
  | TRANSFER
  | MOBILE_PAYMENT
deriving DecidableEq, Repr

/-- The three NestJS exception classes thrown by the two services, with their
message payload. -/
inductive AppError where
  | notFoundException (msg : String)
  | badRequestException (msg : String)
  | forbiddenException (msg : String)
deriving DecidableEq, Repr

/-- Row of `warehouses` (only the columns the core services read). -/
structure Warehouse where
  id : String
  tenant_id : String
  is_active : Bool
deriving DecidableEq, Repr

/-- Row of `inventory_items` joined with its medicine's `trade_name`
(the services always `include: { medicine: true }` when they need the name).
Columns never read by the verified operations (`batch_number`, `expiry_date`,
`cost_price`, `max_stock`) are omitted. -/
structure InventoryItem where
  id : String
  medicine_id : String
  medicine_trade_name : String
  warehouse_id : String
  quantity : Int
  reserved_qty : Int
  reorder_point : Option Int
  selling_price : Option ℚ
deriving DecidableEq, Repr

/-- Row of `stock_movements` (sans generated `id`/`created_at`). -/
structure StockMovement where
  inventory_item_id : String
  warehouse_id : String
  movement_type : StockMovementType
  quantity : Int
  reference_type : Option String
  reference_id : Option String
  notes : Option String
  created_by : String
deriving DecidableEq, Repr

/-- Row of `sales`. -/
structure Sale where
  id : String
  sale_number : String
  warehouse_id : String
  user_id : String
  status : SaleStatus
  payment_method : PaymentMethod
  total_amount : ℚ
  discount_amount : ℚ
  tax_amount : ℚ
  final_amount : ℚ
  notes : Option String
  tenant_id : String
  created_at : DateTime
deriving DecidableEq, Repr

/-- Row of `sale_items` (sans generated `id`/`created_at`). -/
structure SaleItem where
  sale_id : String
  inventory_item_id : String
  medicine_id : String
  quantity : Int
  unit_price : ℚ
  discount_percent : ℚ
  discount_amount : ℚ
  tax_percent : ℚ
  tax_amount : ℚ
  subtotal : ℚ
  notes : Option String
deriving DecidableEq, Repr

/-- The relational state the two services touch.  New rows are appended at the
end of each list (insertion order), matching Prisma `create`. -/
structure DB where
  warehouses : List Warehouse
  items : List InventoryItem
  sales : List Sale
  saleItems : List SaleItem
  movements : List StockMovement
deriving DecidableEq, Repr

/-- `CreateSaleItemDto` (sale-item.dto.ts).  Optional fields are `Option`;
class-validator bounds (`quantity ≥ 1`, optional numbers ≥ 0) are carried as
hypotheses where a theorem needs them. -/
structure CreateSaleItemDto where
  inventory_item_id : String
  quantity : Int
  unit_price : Option ℚ
  discount_percent : Option ℚ
  discount_amount : Option ℚ
  tax_percent : Option ℚ
  notes : Option String
deriving DecidableEq, Repr

/-- `CreateSaleDto` (create-sale.dto.ts). -/
structure CreateSaleDto where
  warehouse_id : String
  payment_method : PaymentMethod
  items : List CreateSaleItemDto
  notes : Option String
deriving DecidableEq, Repr

/-- `CreateStockMovementDto` (stock-movement.dto.ts). -/
structure CreateStockMovementDto where
  inventory_item_id : String
  warehouse_id : String
  movement_type : StockMovementType
  quantity : Int
  reference_type : Option String
  reference_id : Option String
  notes : Option String
deriving DecidableEq, Repr

/-- `AdjustStockDto` (adjust-stock.dto.ts): the new absolute quantity. -/
structure AdjustStockDto where
  quantity : Int
  notes : Option String
deriving DecidableEq, Repr

/-! ### Numeric helpers -/

/-- JS `Math.round`: round half toward positive infinity, i.e. `⌊x + 1/2⌋`.
NB this is NOT round-half-away-from-zero: `Math.round(-12.5) = -12`. -/
def jsRound (x : ℚ) : Int := ⌊x + 1/2⌋

/-- JS `Math.round(x * 100) / 100`, the 2-decimal rounding used throughout
the sales service. -/
def round2 (x : ℚ) : ℚ := (jsRound (x * 100) : ℚ) / 100

/-! ### SalesService.calculateItemSubtotal -/

/-- Result record of `calculateItemSubtotal`. -/
structure SubtotalCalc where
  subtotal : ℚ
  discountAmount : ℚ
  taxAmount : ℚ
deriving DecidableEq, Repr

/-- `SalesService.calculateItemSubtotal` (sales.service.ts).  `undefined`
optional arguments are `none`; the `x !== undefined && x > 0` guards become
matches on the option.  All arithmetic is exact; rounding happens once, on the
three outputs. -/
def calculateItemSubtotal (quantity : Int) (unitPrice : ℚ)
    (discountPercent discountAmount taxPercent : Option ℚ) : SubtotalCalc :=
  let baseAmount : ℚ := (quantity : ℚ) * unitPrice
  let finalDiscountAmount : ℚ :=
    match discountAmount with
    | some da =>
      if da > 0 then da
      else match discountPercent with
        | some dp => if dp > 0 then baseAmount * dp / 100 else 0
        | none => 0
    | none =>
      match discountPercent with
      | some dp => if dp > 0 then baseAmount * dp / 100 else 0
      | none => 0
  let amountAfterDiscount := baseAmount - finalDiscountAmount
  let taxAmount : ℚ :=
    match taxPercent with
    | some tp => if tp > 0 then amountAfterDiscount * tp / 100 else 0
    | none => 0
  let subtotal := amountAfterDiscount + taxAmount
  { subtotal := round2 subtotal
    discountAmount := round2 finalDiscountAmount
    taxAmount := round2 taxAmount }

/-! ### Shared lookup / update helpers (Prisma query modelling) -/

/-- Prisma `warehouse.findFirst({ where: { id, tenant_id } })`. -/
def findWarehouse (db : DB) (id tenantId : String) : Option Warehouse :=
  db.warehouses.find? (fun w => w.id = id ∧ w.tenant_id = tenantId)

/-- Prisma `inventoryItem.findFirst({ where: { id, warehouse_id } })`. -/
def findItemInWarehouse (db : DB) (id warehouseId : String) : Option InventoryItem :=
  db.items.find? (fun it => it.id = id ∧ it.warehouse_id = warehouseId)

/-- Whether the warehouse referenced by `warehouseId` belongs to `tenantId`
(the relational `warehouse: { tenant_id: tenantId }` sub-`where`). -/
def warehouseOfTenant (db : DB) (warehouseId tenantId : String) : Prop :=
  ∃ w ∈ db.warehouses, w.id = warehouseId ∧ w.tenant_id = tenantId

instance (db : DB) (wid tid : String) : Decidable (warehouseOfTenant db wid tid) := by
  unfold warehouseOfTenant; exact List.decidableBEx _ _

/-- Prisma `inventoryItem.findFirst({ where: { id, warehouse: { tenant_id } } })`,
the lookup used by `findInventoryItemById` / `adjustStock`. -/
def findInventoryItemById (db : DB) (id tenantId : String) : Option InventoryItem :=
  db.items.find? (fun it => it.id = id ∧ warehouseOfTenant db it.warehouse_id tenantId)

/-- Prisma `inventoryItem.update({ where: { id }, data: { quantity: f } })`:
rewrite the quantity of the row(s) with the given id. -/
def updateItemQty (items : List InventoryItem) (id : String) (f : Int → Int) :
    List InventoryItem :=
  items.map (fun it => if it.id = id then { it with quantity := f it.quantity } else it)

/-- Quantity of the item with the given id, if present. -/
def qtyOf (db : DB) (id : String) : Option Int :=
  (db.items.find? (fun it => it.id = id)).map (·.quantity)

/-- Prisma `sale.findFirst({ where: { id, tenant_id } })`. -/
def findSale (db : DB) (id tenantId : String) : Option Sale :=
  db.sales.find? (fun s => s.id = id ∧ s.tenant_id = tenantId)

/-- Status of the sale with the given id, if present. -/
def saleStatusOf (db : DB) (id : String) : Option SaleStatus :=
  (db.sales.find? (fun s => s.id = id)).map (·.status)

/-! ### InventoryService.adjustStock -/

/-- `InventoryService.adjustStock` (inventory.service.ts): set an absolute new
quantity, rejecting a zero-delta adjustment, and record one ADJUSTMENT movement
whose `quantity` is `Math.abs(difference)`. -/
def adjustStock (db : DB) (id : String) (dto : AdjustStockDto)
    (tenantId userId : String) : Except AppError DB :=
  match findInventoryItemById db id tenantId with
  | none => .error (.notFoundException s!"Inventory item with ID {id} not found")
  | some item =>
    let oldQuantity := item.quantity
    let newQuantity := dto.quantity
    let difference := newQuantity - oldQuantity
    if difference = 0 then
      .error (.badRequestException "New quantity is the same as current quantity")
    else
      let movement : StockMovement :=
        { inventory_item_id := id
          warehouse_id := item.warehouse_id
          movement_type := .ADJUSTMENT
          quantity := |difference|
          reference_type := none
          reference_id := none
          notes := some (dto.notes.getD s!"Stock adjusted from {oldQuantity} to {newQuantity}")
          created_by := userId }
      .ok { db with
            items := updateItemQty db.items id (fun _ => newQuantity)
            movements := db.movements ++ [movement] }

/-! ### InventoryService.createStockMovement -/

/-- Movement row written by `createStockMovement`: the dto spread plus
`created_by` (so `quantity` is the dto's quantity, whatever the type). -/
def mkDtoMovement (dto : CreateStockMovementDto) (userId : String) : StockMovement :=
  { inventory_item_id := dto.inventory_item_id
    warehouse_id := dto.warehouse_id
    movement_type := dto.movement_type
    quantity := dto.quantity
    reference_type := dto.reference_type
    reference_id := dto.reference_id
    notes := dto.notes
    created_by := userId }

/-- `InventoryService.createStockMovement` (inventory.service.ts).  The
if/else-if chain computes the new quantity: IN adds, OUT subtracts (rejecting
a negative result — `reserved_qty` plays no role here), ADJUSTMENT takes the
dto quantity as the new absolute value, and any other type (TRANSFER, RETURN)
leaves the quantity as it was; then the item is updated and one movement row
is inserted from the dto. -/
def createStockMovement (db : DB) (dto : CreateStockMovementDto)
    (tenantId userId : String) : Except AppError DB :=
  match findWarehouse db dto.warehouse_id tenantId with
  | none => .error (.notFoundException "Warehouse not found or access denied")
  | some _ =>
    match findItemInWarehouse db dto.inventory_item_id dto.warehouse_id with
    | none => .error (.notFoundException "Inventory item not found")
    | some inventoryItem =>
      let step : Except AppError Int :=
        if dto.movement_type = .IN then
          .ok (inventoryItem.quantity + dto.quantity)
        else if dto.movement_type = .OUT then
          let n := inventoryItem.quantity - dto.quantity
          if n < 0 then .error (.badRequestException "Insufficient stock") else .ok n
        else if dto.movement_type = .ADJUSTMENT then
          .ok dto.quantity
        else
          .ok inventoryItem.quantity
      match step with
      | .error e => .error e
      | .ok newQuantity =>
        .ok { db with
              items := updateItemQty db.items inventoryItem.id (fun _ => newQuantity)
              movements := db.movements ++ [mkDtoMovement dto userId] }

/-! ### InventoryService.findLowStockItems -/

/-- Boolean order corresponding to the JS comparator
`(a, b) => a.quantity !== b.quantity ? a.quantity - b.quantity
         : (b.reorder_point ?? 0) - (a.reorder_point ?? 0)`:
`lowStockLe a b` holds iff the comparator is ≤ 0, i.e. `a` may precede `b`. -/
def lowStockLe (a b : InventoryItem) : Bool :=
  if a.quantity = b.quantity then
    b.reorder_point.getD 0 ≤ a.reorder_point.getD 0
  else
    a.quantity < b.quantity

/-- `InventoryService.findLowStockItems` (inventory.service.ts): collect the
tenant's warehouse ids, fetch their items, keep those with
`quantity ≤ (reorder_point ?? 0)`, and sort with the comparator above (JS
`Array.prototype.sort` is stable, hence `mergeSort`). -/
def findLowStockItems (db : DB) (tenantId : String) : List InventoryItem :=
  let warehouseIds :=
    (db.warehouses.filter (fun w => w.tenant_id = tenantId)).map (·.id)
  if warehouseIds = [] then []
  else
    let items := db.items.filter (fun it => it.warehouse_id ∈ warehouseIds)
    let lowStockItems := items.filter (fun it => it.quantity ≤ it.reorder_point.getD 0)
    lowStockItems.mergeSort lowStockLe

/-! ### SalesService.createSale -/

/-- Message of the `BadRequestException` thrown by `createSale` when available
stock is below the requested quantity. -/
def insufficientStockMsg (name : String) (available requested : Int) : String :=
  s!"Insufficient stock for {name}. Available: {available}, Requested: {requested}"

/-- Message of the `BadRequestException` thrown by `createSale` when the
resolved unit price is not positive. -/
def invalidPriceMsg (name : String) : String :=
  s!"Invalid unit price for {name}"

/-- One entry of the `validatedItems` array built by the validation loop of
`createSale`: the inventory-item snapshot, the dto line, the resolved unit
price and the `calculateItemSubtotal` outputs. -/
structure ValidatedItem where
  inventoryItem : InventoryItem
  item : CreateSaleItemDto
  unitPrice : ℚ
  subtotal : ℚ
  discountAmount : ℚ
  taxAmount : ℚ
deriving DecidableEq, Repr

/-- The `validatedItems` entry assembled for one dto line from the resolved
inventory item: resolved unit price (`item.unit_price ?? Number(selling_price
?? 0)`) and the spread of the `calculateItemSubtotal` result. -/
def mkValidatedItem (item : CreateSaleItemDto) (inventoryItem : InventoryItem) :
    ValidatedItem :=
  let unitPrice := item.unit_price.getD (inventoryItem.selling_price.getD 0)
  let c := calculateItemSubtotal item.quantity unitPrice
    item.discount_percent item.discount_amount item.tax_percent
  { inventoryItem, item, unitPrice,
    subtotal := c.subtotal
    discountAmount := c.discountAmount
    taxAmount := c.taxAmount }

/-- One iteration of the validation loop of `createSale`: resolve the
inventory item in the warehouse, check available stock
(`quantity - reserved_qty`), resolve and check the unit price, and compute the
monetary calculation. -/
def validateOne (db : DB) (warehouseId : String) (item : CreateSaleItemDto) :
    Except AppError ValidatedItem :=
  match findItemInWarehouse db item.inventory_item_id warehouseId with
  | none =>
    let iid := item.inventory_item_id
    .error (.notFoundException s!"Inventory item {iid} not found in warehouse")
  | some inventoryItem =>
    let availableStock := inventoryItem.quantity - inventoryItem.reserved_qty
    if availableStock < item.quantity then
      .error (.badRequestException
        (insufficientStockMsg inventoryItem.medicine_trade_name availableStock item.quantity))
    else
      let unitPrice := item.unit_price.getD (inventoryItem.selling_price.getD 0)
      if unitPrice ≤ 0 then
        .error (.badRequestException (invalidPriceMsg inventoryItem.medicine_trade_name))
      else
        .ok (mkValidatedItem item inventoryItem)

/-- Validation loop of `createSale` (sales.service.ts, the `for` over
`createSaleDto.items`): every line is resolved and checked against the same
pre-transaction `db` snapshot; the first failing line's exception aborts the
whole request. -/
def validateSaleItems (db : DB) (warehouseId : String) :
    List CreateSaleItemDto → Except AppError (List ValidatedItem)
  | [] => .ok []
  | item :: rest =>
    match validateOne db warehouseId item with
    | .error e => .error e
    | .ok v =>
      match validateSaleItems db warehouseId rest with
      | .error e => .error e
      | .ok vrest => .ok (v :: vrest)

/-- `totalAmount` accumulated by the validation loop: `Σ quantity * unitPrice`. -/
def totalAmountOf (vs : List ValidatedItem) : ℚ :=
  (vs.map (fun v => (v.item.quantity : ℚ) * v.unitPrice)).sum

/-- `totalDiscountAmount` accumulated by the validation loop. -/
def totalDiscountOf (vs : List ValidatedItem) : ℚ :=
  (vs.map (·.discountAmount)).sum

/-- `totalTaxAmount` accumulated by the validation loop. -/
def totalTaxOf (vs : List ValidatedItem) : ℚ :=
  (vs.map (·.taxAmount)).sum

/-- `tx.saleItem.create` data for one validated line. -/
def mkSaleItem (saleId : String) (v : ValidatedItem) : SaleItem :=
  { sale_id := saleId
    inventory_item_id := v.inventoryItem.id
    medicine_id := v.inventoryItem.medicine_id
    quantity := v.item.quantity
    unit_price := v.unitPrice
    discount_percent := v.item.discount_percent.getD 0
    discount_amount := v.discountAmount
    tax_percent := v.item.tax_percent.getD 0
    tax_amount := v.taxAmount
    subtotal := v.subtotal
    notes := v.item.notes }

/-- `tx.stockMovement.create` data for one validated line of a sale. -/
def mkOutMovement (warehouseId saleId saleNumber userId : String)
    (v : ValidatedItem) : StockMovement :=
  { inventory_item_id := v.inventoryItem.id
    warehouse_id := warehouseId
    movement_type := .OUT
    quantity := v.item.quantity
    reference_type := some "SALE"
    reference_id := some saleId
    notes := some s!"Sale {saleNumber}"
    created_by := userId }

/-- Body of the per-item step inside the `createSale` transaction: insert the
sale item, decrement the inventory quantity, insert the OUT movement. -/
def applySaleItem (warehouseId saleId saleNumber userId : String)
    (db : DB) (v : ValidatedItem) : DB :=
  { db with
    saleItems := db.saleItems ++ [mkSaleItem saleId v]
    items := updateItemQty db.items v.inventoryItem.id (fun q => q - v.item.quantity)
    movements := db.movements ++ [mkOutMovement warehouseId saleId saleNumber userId v] }

/-- The `for` loop inside the `createSale` transaction. -/
def applySaleItems (warehouseId saleId saleNumber userId : String)
    (db : DB) (vs : List ValidatedItem) : DB :=
  vs.foldl (applySaleItem warehouseId saleId saleNumber userId) db

/-- The `Sale` row inserted by `tx.sale.create` in `createSale`:
status COMPLETED, the accumulated totals, and
`final_amount = totalAmount - totalDiscountAmount + totalTaxAmount`. -/
def mkSale (dto : CreateSaleDto) (tenantId userId : String) (now : DateTime)
    (saleId saleNumber : String) (validated : List ValidatedItem) : Sale :=
  let totalAmount := totalAmountOf validated
  let totalDiscountAmount := totalDiscountOf validated
  let totalTaxAmount := totalTaxOf validated
  { id := saleId
    sale_number := saleNumber
    warehouse_id := dto.warehouse_id
    user_id := userId
    status := .COMPLETED
    payment_method := dto.payment_method
    total_amount := totalAmount
    discount_amount := totalDiscountAmount
    tax_amount := totalTaxAmount
    final_amount := totalAmount - totalDiscountAmount + totalTaxAmount
    notes := dto.notes
    tenant_id := tenantId
    created_at := now }

/-- `SalesService.createSale` (sales.service.ts).  `saleId` stands for the
DB-generated uuid of the new sale row, `saleNumber` for the string produced by
`generateSaleNumber`, and `now` for the row's `created_at` — all inputs the
environment supplies; the claims under verification do not constrain them.
Errors thrown during validation, and any error inside `$transaction`, leave
the database unchanged (all-or-nothing), which the `Except` result models. -/
def createSale (db : DB) (dto : CreateSaleDto) (tenantId userId : String)
    (now : DateTime) (saleId saleNumber : String) : Except AppError DB :=
  match findWarehouse db dto.warehouse_id tenantId with
  | none => .error (.notFoundException "Warehouse not found or inactive")
  | some warehouse =>
    if warehouse.is_active = false then
      .error (.notFoundException "Warehouse not found or inactive")
    else
      match validateSaleItems db dto.warehouse_id dto.items with
      | .error e => .error e
      | .ok validated =>
        let db1 := { db with
                     sales := db.sales ++ [mkSale dto tenantId userId now saleId saleNumber validated] }
        .ok (applySaleItems dto.warehouse_id saleId saleNumber userId db1 validated)

/-! ### SalesService.cancelSale -/

/-- The `isSameDay` test of `cancelSale`: equality of `getDate`, `getMonth`
and `getFullYear` — calendar-date equality, not a rolling 24-hour window. -/
def sameDay (a b : DateTime) : Prop :=
  a.day = b.day ∧ a.month = b.month ∧ a.year = b.year

instance (a b : DateTime) : Decidable (sameDay a b) := by
  unfold sameDay; infer_instance

/-- RETURN movement written for one line item of a cancelled sale. -/
def mkReturnMovement (sale : Sale) (userId : String) (si : SaleItem) : StockMovement :=
  let sn := sale.sale_number
  { inventory_item_id := si.inventory_item_id
    warehouse_id := sale.warehouse_id
    movement_type := .RETURN
    quantity := si.quantity
    reference_type := some "SALE_CANCELLATION"
    reference_id := some sale.id
    notes := some s!"Sale {sn} cancelled"
    created_by := userId }

/-- Body of the per-line step inside the `cancelSale` transaction: increment
the inventory quantity back and insert the RETURN movement. -/
def applyCancelItem (sale : Sale) (userId : String) (db : DB) (si : SaleItem) : DB :=
  { db with
    items := updateItemQty db.items si.inventory_item_id (fun q => q + si.quantity)
    movements := db.movements ++ [mkReturnMovement sale userId si] }

/-- Prisma `sale.update({ where: { id }, data: { status } })`. -/
def updateSaleStatus (sales : List Sale) (id : String) (st : SaleStatus) : List Sale :=
  sales.map (fun s => if s.id = id then { s with status := st } else s)

/-- `SalesService.cancelSale` (sales.service.ts): resolve the sale (with its
line items), reject terminal statuses and non-same-day sales, then in one
transaction set the status to CANCELLED and, per line item, restore the
quantity and write a RETURN movement. -/
def cancelSale (db : DB) (id tenantId userId : String) (now : DateTime) :
    Except AppError DB :=
  match findSale db id tenantId with
  | none => .error (.notFoundException s!"Sale with ID {id} not found")
  | some sale =>
    if sale.status = .CANCELLED then
      .error (.badRequestException "Sale is already cancelled")
    else if sale.status = .REFUNDED then
      .error (.badRequestException "Cannot cancel a refunded sale")
    else if ¬ sameDay sale.created_at now then
      .error (.forbiddenException "Can only cancel sales from the same day")
    else
      let saleLines := db.saleItems.filter (fun si => si.sale_id = sale.id)
      let db1 := { db with sales := updateSaleStatus db.sales id .CANCELLED }
      .ok (saleLines.foldl (applyCancelItem sale userId) db1)

/-! ### Helper lemmas: quantity bookkeeping -/

/-- Quantity of the first item with a given id in a plain item list. -/
def qtyOfItems (items : List InventoryItem) (id : String) : Option Int :=
  (items.find? (fun it => it.id = id)).map (·.quantity)

theorem qtyOf_def (db : DB) (id : String) : qtyOf db id = qtyOfItems db.items id := rfl

theorem find?_updateItemQty (items : List InventoryItem) (id : String)
    (f : Int → Int) (id' : String) :
    (updateItemQty items id f).find? (fun it => it.id = id') =
      (items.find? (fun it => it.id = id')).map
        (fun it => if it.id = id then { it with quantity := f it.quantity } else it) := by
  unfold updateItemQty
  have hp : ((fun it : InventoryItem => decide (it.id = id')) ∘
      (fun it => if it.id = id then { it with quantity := f it.quantity } else it)) =
      (fun it : InventoryItem => decide (it.id = id')) := by
    funext it
    by_cases h : it.id = id <;> simp [h]
  rw [List.find?_map, hp]

theorem qtyOfItems_updateItemQty (items : List InventoryItem) (id : String)
    (f : Int → Int) (id' : String) :
    qtyOfItems (updateItemQty items id f) id' =
      if id' = id then (qtyOfItems items id').map f else qtyOfItems items id' := by
  unfold qtyOfItems
  rw [find?_updateItemQty]
  cases h : items.find? (fun it => it.id = id') with
  | none => simp
  | some a =>
    have ha : a.id = id' := by simpa using List.find?_some h
    by_cases h2 : id' = id
    · subst h2; simp [ha]
    · have : ¬ a.id = id := by rw [ha]; exact h2
      simp [this, h2]

/-- Net delta an (id, δ) update list applies to a given id. -/
def deltaSum (ps : List (String × Int)) (id : String) : Int :=
  ((ps.filter (fun p => p.1 = id)).map (·.2)).sum

/-- Sequential application of additive quantity updates, the common shape of
the inventory writes inside the `createSale` and `cancelSale` transactions. -/
def applyDeltas (items : List InventoryItem) (ps : List (String × Int)) :
    List InventoryItem :=
  ps.foldl (fun its p => updateItemQty its p.1 (fun q => q + p.2)) items

theorem qtyOfItems_applyDeltas (ps : List (String × Int))
    (items : List InventoryItem) (id : String) :
    qtyOfItems (applyDeltas items ps) id =
      (qtyOfItems items id).map (fun q => q + deltaSum ps id) := by
  induction ps generalizing items with
  | nil =>
    cases h : qtyOfItems items id <;> simp [applyDeltas, deltaSum, h]
  | cons p ps ih =>
    have step : applyDeltas items (p :: ps) =
        applyDeltas (updateItemQty items p.1 (fun q => q + p.2)) ps := rfl
    rw [step, ih, qtyOfItems_updateItemQty]
    by_cases h : id = p.1
    · cases hq : qtyOfItems items id <;>
        simp [deltaSum, h, hq, add_assoc]
    · have : ¬ p.1 = id := fun hh => h hh.symm
      cases hq : qtyOfItems items id <;>
        simp [deltaSum, h, this, hq]

theorem deltaSum_map_neg (ps : List (String × Int)) (id : String) :
    deltaSum (ps.map (fun p => (p.1, -p.2))) id = -(deltaSum ps id) := by
  induction ps with
  | nil => simp [deltaSum]
  | cons p ps ih =>
    by_cases h : p.1 = id <;>
      simp [deltaSum, h, List.filter_cons] at ih ⊢ <;> omega

/-! ### Helper lemmas: the createSale transaction fold -/

theorem applySaleItems_items (w sid sn u : String) (vs : List ValidatedItem) (db : DB) :
    (applySaleItems w sid sn u db vs).items =
      applyDeltas db.items (vs.map (fun v => (v.inventoryItem.id, -v.item.quantity))) := by
  induction vs generalizing db with
  | nil => rfl
  | cons v vs ih =>
    have step : applySaleItems w sid sn u db (v :: vs) =
        applySaleItems w sid sn u (applySaleItem w sid sn u db v) vs := rfl
    rw [step, ih]
    rfl

theorem applySaleItems_movements (w sid sn u : String) (vs : List ValidatedItem) (db : DB) :
    (applySaleItems w sid sn u db vs).movements =
      db.movements ++ vs.map (mkOutMovement w sid sn u) := by
  induction vs generalizing db with
  | nil => simp [applySaleItems]
  | cons v vs ih =>
    have step : applySaleItems w sid sn u db (v :: vs) =
        applySaleItems w sid sn u (applySaleItem w sid sn u db v) vs := rfl
    rw [step, ih]
    simp [applySaleItem]

theorem applySaleItems_saleItems (w sid sn u : String) (vs : List ValidatedItem) (db : DB) :
    (applySaleItems w sid sn u db vs).saleItems =
      db.saleItems ++ vs.map (mkSaleItem sid) := by
  induction vs generalizing db with
  | nil => simp [applySaleItems]
  | cons v vs ih =>
    have step : applySaleItems w sid sn u db (v :: vs) =
        applySaleItems w sid sn u (applySaleItem w sid sn u db v) vs := rfl
    rw [step, ih]
    simp [applySaleItem]

theorem applySaleItems_sales (w sid sn u : String) (vs : List ValidatedItem) (db : DB) :
    (applySaleItems w sid sn u db vs).sales = db.sales := by
  induction vs generalizing db with
  | nil => rfl
  | cons v vs ih =>
    have step : applySaleItems w sid sn u db (v :: vs) =
        applySaleItems w sid sn u (applySaleItem w sid sn u db v) vs := rfl
    rw [step, ih]
    rfl

theorem applySaleItems_warehouses (w sid sn u : String) (vs : List ValidatedItem) (db : DB) :
    (applySaleItems w sid sn u db vs).warehouses = db.warehouses := by
  induction vs generalizing db with
  | nil => rfl
  | cons v vs ih =>
    have step : applySaleItems w sid sn u db (v :: vs) =
        applySaleItems w sid sn u (applySaleItem w sid sn u db v) vs := rfl
    rw [step, ih]
    rfl

/-! ### Helper lemmas: the cancelSale transaction fold -/

theorem cancelFold_items (sale : Sale) (u : String) (lines : List SaleItem) (db : DB) :
    (lines.foldl (applyCancelItem sale u) db).items =
      applyDeltas db.items (lines.map (fun si => (si.inventory_item_id, si.quantity))) := by
  induction lines generalizing db with
  | nil => rfl
  | cons si lines ih =>
    rw [List.foldl_cons, ih]
    rfl

theorem cancelFold_movements (sale : Sale) (u : String) (lines : List SaleItem) (db : DB) :
    (lines.foldl (applyCancelItem sale u) db).movements =
      db.movements ++ lines.map (mkReturnMovement sale u) := by
  induction lines generalizing db with
  | nil => simp
  | cons si lines ih =>
    rw [List.foldl_cons, ih]
    simp [applyCancelItem]

theorem cancelFold_sales (sale : Sale) (u : String) (lines : List SaleItem) (db : DB) :
    (lines.foldl (applyCancelItem sale u) db).sales = db.sales := by
  induction lines generalizing db with
  | nil => rfl
  | cons si lines ih =>
    rw [List.foldl_cons, ih]
    rfl

theorem cancelFold_saleItems (sale : Sale) (u : String) (lines : List SaleItem) (db : DB) :
    (lines.foldl (applyCancelItem sale u) db).saleItems = db.saleItems := by
  induction lines generalizing db with
  | nil => rfl
  | cons si lines ih =>
    rw [List.foldl_cons, ih]
    rfl

/-! ### Helper lemmas: sale status update -/

theorem find?_updateSaleStatus (sales : List Sale) (id : String) (st : SaleStatus)
    (id' : String) :
    (updateSaleStatus sales id st).find? (fun s => s.id = id') =
      (sales.find? (fun s => s.id = id')).map
        (fun s => if s.id = id then { s with status := st } else s) := by
  unfold updateSaleStatus
  have hp : ((fun s : Sale => decide (s.id = id')) ∘
      (fun s => if s.id = id then { s with status := st } else s)) =
      (fun s : Sale => decide (s.id = id')) := by
    funext s
    by_cases h : s.id = id <;> simp [h]
  rw [List.find?_map, hp]

/-! ### Helper lemmas: the validation loop -/

/-- A dto line passes every check of the validation loop of `createSale`:
its inventory item resolves in the warehouse, available stock suffices, and
the resolved unit price is positive. -/
def linePasses (db : DB) (warehouseId : String) (l : CreateSaleItemDto) : Prop :=
  ∃ inv, findItemInWarehouse db l.inventory_item_id warehouseId = some inv ∧
    l.quantity ≤ inv.quantity - inv.reserved_qty ∧
    0 < l.unit_price.getD (inv.selling_price.getD 0)

theorem validateOne_eq_ok {db : DB} {wid : String} {l : CreateSaleItemDto}
    {inv : InventoryItem}
    (hf : findItemInWarehouse db l.inventory_item_id wid = some inv)
    (hq : l.quantity ≤ inv.quantity - inv.reserved_qty)
    (hp : 0 < l.unit_price.getD (inv.selling_price.getD 0)) :
    validateOne db wid l = .ok (mkValidatedItem l inv) := by
  simp [validateOne, hf, not_lt.mpr hq, not_le.mpr hp]

theorem validateOne_insufficient {db : DB} {wid : String} {l : CreateSaleItemDto}
    {inv : InventoryItem}
    (hf : findItemInWarehouse db l.inventory_item_id wid = some inv)
    (hq : inv.quantity - inv.reserved_qty < l.quantity) :
    validateOne db wid l = .error (.badRequestException
      (insufficientStockMsg inv.medicine_trade_name
        (inv.quantity - inv.reserved_qty) l.quantity)) := by
  simp [validateOne, hf, hq]

theorem validateOne_ok_inv {db : DB} {wid : String} {l : CreateSaleItemDto}
    {v : ValidatedItem} (h : validateOne db wid l = .ok v) :
    findItemInWarehouse db l.inventory_item_id wid = some v.inventoryItem ∧
    v.item = l ∧
    l.quantity ≤ v.inventoryItem.quantity - v.inventoryItem.reserved_qty ∧
    v.unitPrice = l.unit_price.getD (v.inventoryItem.selling_price.getD 0) ∧
    0 < v.unitPrice := by
  unfold validateOne at h
  cases hf : findItemInWarehouse db l.inventory_item_id wid with
  | none => rw [hf] at h; exact absurd h (by simp)
  | some inv =>
    rw [hf] at h
    by_cases h1 : inv.quantity - inv.reserved_qty < l.quantity
    · simp [h1] at h
    · by_cases h2 : l.unit_price.getD (inv.selling_price.getD 0) ≤ 0
      · simp [h1, h2] at h
      · simp [h1, h2] at h
        subst h
        exact ⟨rfl, rfl, not_lt.mp h1, rfl, not_le.mp h2⟩

theorem validateSaleItems_error_after {db : DB} {wid : String}
    {line : CreateSaleItemDto} {e : AppError} (pre post : List CreateSaleItemDto)
    (hpass : ∀ l ∈ pre, linePasses db wid l)
    (h : validateOne db wid line = .error e) :
    validateSaleItems db wid (pre ++ line :: post) = .error e := by
  induction pre with
  | nil => simp [validateSaleItems, h]
  | cons a pre ih =>
    obtain ⟨inv, hf, hq, hp⟩ := hpass a (List.mem_cons_self a pre)
    have ha := validateOne_eq_ok hf hq hp
    have ihp := ih (fun l hl => hpass l (List.mem_cons_of_mem a hl))
    simp [validateSaleItems, ha, ihp]

theorem validateSaleItems_ok_of_passes {db : DB} {wid : String}
    (lines : List CreateSaleItemDto)
    (hpass : ∀ l ∈ lines, linePasses db wid l) :
    ∃ vs, validateSaleItems db wid lines = .ok vs ∧
      List.Forall₂ (fun l v => validateOne db wid l = .ok v) lines vs := by
  induction lines with
  | nil => exact ⟨[], rfl, List.Forall₂.nil⟩
  | cons a rest ih =>
    obtain ⟨inv, hf, hq, hp⟩ := hpass a (List.mem_cons_self a rest)
    have ha := validateOne_eq_ok hf hq hp
    obtain ⟨vs, hvs, hrel⟩ := ih (fun l hl => hpass l (List.mem_cons_of_mem a hl))
    exact ⟨mkValidatedItem a inv :: vs,
      by simp [validateSaleItems, ha, hvs],
      List.Forall₂.cons ha hrel⟩

theorem validateSaleItems_ok_forall₂ {db : DB} {wid : String} :
    ∀ {lines : List CreateSaleItemDto} {vs : List ValidatedItem},
    validateSaleItems db wid lines = .ok vs →
    List.Forall₂ (fun l v => validateOne db wid l = .ok v) lines vs
  | [], vs, h => by
    simp [validateSaleItems] at h
    subst h
    exact List.Forall₂.nil
  | a :: rest, vs, h => by
    unfold validateSaleItems at h
    cases h1 : validateOne db wid a with
    | error e => rw [h1] at h; exact absurd h (by simp)
    | ok v =>
      rw [h1] at h
      cases h2 : validateSaleItems db wid rest with
      | error e => rw [h2] at h; exact absurd h (by simp)
      | ok vrest =>
        rw [h2] at h
        have hv : v :: vrest = vs := by simpa using h
        subst hv
        exact List.Forall₂.cons h1 (validateSaleItems_ok_forall₂ h2)

/-! ### Helper lemmas: createSale success shape -/

theorem createSale_ok_eq {db : DB} {dto : CreateSaleDto} {tenantId userId : String}
    {now : DateTime} {saleId saleNumber : String} {w : Warehouse}
    {vs : List ValidatedItem}
    (hw : findWarehouse db dto.warehouse_id tenantId = some w)
    (hact : w.is_active = true)
    (hv : validateSaleItems db dto.warehouse_id dto.items = .ok vs) :
    createSale db dto tenantId userId now saleId saleNumber =
      .ok (applySaleItems dto.warehouse_id saleId saleNumber userId
        { db with sales := db.sales ++ [mkSale dto tenantId userId now saleId saleNumber vs] }
        vs) := by
  simp [createSale, hw, hact, hv]

theorem createSale_ok_inv {db : DB} {dto : CreateSaleDto} {tenantId userId : String}
    {now : DateTime} {saleId saleNumber : String} {db1 : DB}
    (h : createSale db dto tenantId userId now saleId saleNumber = .ok db1) :
    ∃ w vs, findWarehouse db dto.warehouse_id tenantId = some w ∧
      w.is_active = true ∧
      validateSaleItems db dto.warehouse_id dto.items = .ok vs ∧
      db1 = applySaleItems dto.warehouse_id saleId saleNumber userId
        { db with sales := db.sales ++ [mkSale dto tenantId userId now saleId saleNumber vs] }
        vs := by
  unfold createSale at h
  cases hw : findWarehouse db dto.warehouse_id tenantId with
  | none => rw [hw] at h; exact absurd h (by simp)
  | some w =>
    rw [hw] at h
    dsimp only at h
    by_cases hact : w.is_active = false
    · rw [if_pos hact] at h; exact absurd h (by simp)
    · rw [if_neg hact] at h
      have hact' : w.is_active = true := by
        revert hact; cases w.is_active <;> simp
      cases hv : validateSaleItems db dto.warehouse_id dto.items with
      | error e => rw [hv] at h; exact absurd h (by simp)
      | ok vs =>
        rw [hv] at h
        dsimp only at h
        injection h with h'
        exact ⟨w, vs, rfl, hact', rfl, h'.symm⟩

/-! ### Helper lemmas: misc -/

theorem updateItemQty_eq_self (items : List InventoryItem) (id : String) (f : Int → Int)
    (h : ∀ it ∈ items, it.id = id → f it.quantity = it.quantity) :
    updateItemQty items id f = items := by
  induction items with
  | nil => rfl
  | cons a l ih =>
    unfold updateItemQty
    by_cases ha : a.id = id
    · simp only [List.map_cons, if_pos ha]
      rw [h a (List.mem_cons_self a l) ha]
      have tail := ih (fun it hit hid => h it (List.mem_cons_of_mem a hit) hid)
      unfold updateItemQty at tail
      rw [tail]
    · simp only [List.map_cons, if_neg ha]
      have tail := ih (fun it hit hid => h it (List.mem_cons_of_mem a hit) hid)
      unfold updateItemQty at tail
      rw [tail]

theorem qtyOfItems_eq_some_of_mem {items : List InventoryItem} {it : InventoryItem}
    {iid : String} (h : it ∈ items) (hid : it.id = iid) :
    ∃ q, qtyOfItems items iid = some q := by
  have : (items.find? (fun x => x.id = iid)).isSome :=
    List.find?_isSome.mpr ⟨it, h, by simp [hid]⟩
  obtain ⟨a, ha⟩ := Option.isSome_iff_exists.mp this
  exact ⟨a.quantity, by simp [qtyOfItems, ha]⟩

/-! ## Claim C5 -/

/-- Fixture for claim C5: one warehouse of tenant T, one item at quantity 50. -/
def exC5item : InventoryItem :=
  { id := "I1", medicine_id := "M1", medicine_trade_name := "Analgin"
    warehouse_id := "W1", quantity := 50, reserved_qty := 0
    reorder_point := none, selling_price := none }

/-- Fixture database for claim C5. -/
def exC5db : DB :=
  { warehouses := [{ id := "W1", tenant_id := "T", is_active := true }]
    items := [exC5item]
    sales := [], saleItems := [], movements := [] }

/-- C5: for every stock adjustment to an absolute new quantity, if the new
quantity equals the current one the operation fails with a ValidationError
(`BadRequestException`) and no movement is written (the state is unchanged);
otherwise the item's quantity is set to the new value and exactly one
ADJUSTMENT movement is emitted whose magnitude is `|newQty − oldQty|`. -/
theorem adjustStock_spec (db : DB) (id : String) (dto : AdjustStockDto)
    (tenantId userId : String) (item : InventoryItem)
    (hfind : findInventoryItemById db id tenantId = some item) :
    (dto.quantity = item.quantity →
      adjustStock db id dto tenantId userId =
        .error (.badRequestException "New quantity is the same as current quantity")) ∧
    (dto.quantity ≠ item.quantity →
      ∃ db', adjustStock db id dto tenantId userId = .ok db' ∧
        db'.items = updateItemQty db.items id (fun _ => dto.quantity) ∧
        qtyOf db' id = some dto.quantity ∧
        ∃ mov, db'.movements = db.movements ++ [mov] ∧
          mov.movement_type = .ADJUSTMENT ∧
          mov.quantity = |dto.quantity - item.quantity|) := by
  constructor
  · intro heq
    have hdiff : dto.quantity - item.quantity = 0 := by omega
    simp [adjustStock, hfind, hdiff]
  · intro hne
    have hdiff : ¬ (dto.quantity - item.quantity = 0) := by omega
    have hid : item.id = id := by
      have := List.find?_some hfind
      simp at this
      exact this.1
    have hmem : item ∈ db.items := List.mem_of_find?_eq_some hfind
    simp only [adjustStock, hfind, hdiff, if_neg hdiff]
    refine ⟨_, rfl, rfl, ?_, _, rfl, rfl, rfl⟩
    rw [qtyOf_def]
    simp only [qtyOfItems_updateItemQty, if_pos rfl]
    obtain ⟨q, hq⟩ := qtyOfItems_eq_some_of_mem hmem hid
    simp [hq]

/-- Witness for C5 at a concrete database: adjusting 50 → 50 is rejected,
adjusting 50 → 60 writes exactly one ADJUSTMENT movement of magnitude 10. -/
theorem adjustStock_spec_witness :
    (adjustStock exC5db "I1" { quantity := 50, notes := none } "T" "U" =
      .error (.badRequestException "New quantity is the same as current quantity")) ∧
    (∃ db', adjustStock exC5db "I1" { quantity := 60, notes := none } "T" "U" = .ok db' ∧
      db'.items = updateItemQty exC5db.items "I1" (fun _ => 60) ∧
      qtyOf db' "I1" = some 60 ∧
      ∃ mov, db'.movements = exC5db.movements ++ [mov] ∧
        mov.movement_type = .ADJUSTMENT ∧
        mov.quantity = |(60 : Int) - 50|) :=
  ⟨(adjustStock_spec exC5db "I1" { quantity := 50, notes := none } "T" "U" exC5item
      (by decide)).1 (by decide),
   (adjustStock_spec exC5db "I1" { quantity := 60, notes := none } "T" "U" exC5item
      (by decide)).2 (by decide)⟩

/-! ## Claim C9 -/

/-- Fixture item for claim C9. -/
def exC9item : InventoryItem :=
  { id := "I1", medicine_id := "M1", medicine_trade_name := "Analgin"
    warehouse_id := "W1", quantity := 10, reserved_qty := 0
    reorder_point := none, selling_price := none }

/-- Fixture database for claim C9. -/
def exC9db : DB :=
  { warehouses := [{ id := "W1", tenant_id := "T", is_active := true }]
    items := [exC9item]
    sales := [], saleItems := [], movements := [] }

/-- Fixture dto for claim C9: a RETURN movement of 4 units. -/
def exC9dto : CreateStockMovementDto :=
  { inventory_item_id := "I1", warehouse_id := "W1"
    movement_type := .RETURN, quantity := 4
    reference_type := none, reference_id := none, notes := none }

/-- C9: recording a stock movement of type RETURN or TRANSFER succeeds, leaves
every inventory quantity unchanged (the if/else-if chain of
`createStockMovement` has no branch for these types, so `newQuantity` stays
the current quantity), yet still appends one `StockMovement` row built from
the dto — a ledger entry with no corresponding quantity change.  The
`huniq` hypothesis says the resolved item's id does not collide with a
different row (ids are unique in the real database). -/
theorem createStockMovement_return_transfer_frame (db : DB)
    (dto : CreateStockMovementDto) (tenantId userId : String)
    (w : Warehouse) (item : InventoryItem)
    (hw : findWarehouse db dto.warehouse_id tenantId = some w)
    (hi : findItemInWarehouse db dto.inventory_item_id dto.warehouse_id = some item)
    (huniq : ∀ it ∈ db.items, it.id = item.id → it.quantity = item.quantity)
    (hty : dto.movement_type = .RETURN ∨ dto.movement_type = .TRANSFER) :
    createStockMovement db dto tenantId userId =
      .ok { db with movements := db.movements ++ [mkDtoMovement dto userId] } := by
  have hup : updateItemQty db.items item.id (fun _ => item.quantity) = db.items :=
    updateItemQty_eq_self _ _ _ (fun it hit hid => (huniq it hit hid).symm)
  have hne1 : dto.movement_type ≠ .IN := by rcases hty with h | h <;> simp [h]
  have hne2 : dto.movement_type ≠ .OUT := by rcases hty with h | h <;> simp [h]
  have hne3 : dto.movement_type ≠ .ADJUSTMENT := by rcases hty with h | h <;> simp [h]
  simp only [createStockMovement, hw, hi, hne1, hne2, hne3, if_neg, ite_false, hup]

/-- Witness for C9: a RETURN movement of 4 units on an item with quantity 10
succeeds, appends exactly one movement row, and changes no quantity. -/
theorem createStockMovement_return_transfer_frame_witness :
    createStockMovement exC9db exC9dto "T" "U" =
      .ok { exC9db with movements := exC9db.movements ++ [mkDtoMovement exC9dto "U"] } :=
  createStockMovement_return_transfer_frame exC9db exC9dto "T" "U"
    { id := "W1", tenant_id := "T", is_active := true } exC9item
    (by decide) (by decide) (by decide) (Or.inl rfl)

/-! ### Helper lemmas: cancelSale success shape -/

theorem findSale_updateSaleStatus (sales : List Sale) (id : String) (st : SaleStatus)
    (id' t : String) :
    (updateSaleStatus sales id st).find? (fun s => s.id = id' ∧ s.tenant_id = t) =
      (sales.find? (fun s => s.id = id' ∧ s.tenant_id = t)).map
        (fun s => if s.id = id then { s with status := st } else s) := by
  unfold updateSaleStatus
  have hp : ((fun s : Sale => decide (s.id = id' ∧ s.tenant_id = t)) ∘
      (fun s => if s.id = id then { s with status := st } else s)) =
      (fun s : Sale => decide (s.id = id' ∧ s.tenant_id = t)) := by
    funext s
    by_cases h : s.id = id <;> simp [h]
  rw [List.find?_map, hp]

theorem cancelSale_ok_eq {db : DB} {id tenantId userId : String} {now : DateTime}
    {sale : Sale} (hfind : findSale db id tenantId = some sale)
    (h1 : sale.status ≠ .CANCELLED) (h2 : sale.status ≠ .REFUNDED)
    (hd : sameDay sale.created_at now) :
    cancelSale db id tenantId userId now =
      .ok ((db.saleItems.filter (fun si => si.sale_id = sale.id)).foldl
        (applyCancelItem sale userId)
        { db with sales := updateSaleStatus db.sales id .CANCELLED }) := by
  simp [cancelSale, hfind, h1, h2, hd]

theorem cancelSale_ok_inv {db : DB} {id tenantId userId : String} {now : DateTime}
    {db1 : DB} (h : cancelSale db id tenantId userId now = .ok db1) :
    ∃ sale, findSale db id tenantId = some sale ∧
      sale.status ≠ .CANCELLED ∧ sale.status ≠ .REFUNDED ∧
      sameDay sale.created_at now ∧
      db1 = (db.saleItems.filter (fun si => si.sale_id = sale.id)).foldl
        (applyCancelItem sale userId)
        { db with sales := updateSaleStatus db.sales id .CANCELLED } := by
  unfold cancelSale at h
  cases hf : findSale db id tenantId with
  | none => rw [hf] at h; exact absurd h (by simp)
  | some sale =>
    rw [hf] at h
    dsimp only at h
    by_cases h1 : sale.status = .CANCELLED
    · rw [if_pos h1] at h; exact absurd h (by simp)
    · rw [if_neg h1] at h
      by_cases h2 : sale.status = .REFUNDED
      · rw [if_pos h2] at h; exact absurd h (by simp)
      · rw [if_neg h2] at h
        by_cases h3 : ¬ sameDay sale.created_at now
        · rw [if_pos h3] at h; exact absurd h (by simp)
        · rw [if_neg h3] at h
          injection h with h'
          exact ⟨sale, rfl, h1, h2, not_not.mp h3, h'.symm⟩

/-! ## Claim C6 -/

/-- C6: cancelling a sale whose status is CANCELLED or REFUNDED fails with an
InvalidStateError (`BadRequestException`) and, since the exception is thrown
before the transaction opens, changes nothing; consequently cancelling the
same sale twice succeeds the first time and fails with the same
InvalidStateError the second time (the first call sets the status to
CANCELLED), with no further state change on the second call. -/
theorem cancelSale_terminal (db : DB) (id tenantId userId : String) (now : DateTime)
    (sale : Sale) (hfind : findSale db id tenantId = some sale) :
    (sale.status = .CANCELLED →
      cancelSale db id tenantId userId now =
        .error (.badRequestException "Sale is already cancelled")) ∧
    (sale.status = .REFUNDED →
      cancelSale db id tenantId userId now =
        .error (.badRequestException "Cannot cancel a refunded sale")) ∧
    (∀ db1, cancelSale db id tenantId userId now = .ok db1 →
      cancelSale db1 id tenantId userId now =
        .error (.badRequestException "Sale is already cancelled")) := by
  refine ⟨?_, ?_, ?_⟩
  · intro h
    simp [cancelSale, hfind, h]
  · intro h
    have hne : sale.status ≠ .CANCELLED := by rw [h]; simp
    simp [cancelSale, hfind, hne, h]
  · intro db1 hok
    obtain ⟨sale', hfind', h1, h2, h3, hdb1⟩ := cancelSale_ok_inv hok
    rw [hfind] at hfind'
    have hs : sale' = sale := by injection hfind'.symm
    subst hs
    have hid : sale'.id = id ∧ sale'.tenant_id = tenantId := by
      have := List.find?_some hfind
      simpa using this
    have hsales : db1.sales = updateSaleStatus db.sales id .CANCELLED := by
      rw [hdb1, cancelFold_sales]
    have hfind1 : findSale db1 id tenantId = some { sale' with status := .CANCELLED } := by
      unfold findSale
      rw [hsales, findSale_updateSaleStatus]
      unfold findSale at hfind
      rw [hfind]
      simp [hid.1]
    simp [cancelSale, hfind1]

/-- Fixture sale for claim C6: a COMPLETED sale of 2026-09-12. -/
def exC6sale : Sale :=
  { id := "S1", sale_number := "SALE-20260912-0001", warehouse_id := "W1"
    user_id := "U", status := .COMPLETED, payment_method := .CASH
    total_amount := 100, discount_amount := 0, tax_amount := 0, final_amount := 100
    notes := none, tenant_id := "T"
    created_at := { year := 2026, month := 8, day := 12, hour := 10, minute := 0 } }

/-- Fixture sale for claim C6, REFUNDED variant. -/
def exC6saleR : Sale :=
  { exC6sale with id := "S2", status := .REFUNDED }

/-- Fixture database for claim C6: one COMPLETED sale with one line item, and
one REFUNDED sale. -/
def exC6db : DB :=
  { warehouses := [{ id := "W1", tenant_id := "T", is_active := true }]
    items := [{ id := "I1", medicine_id := "M1", medicine_trade_name := "Analgin"
                warehouse_id := "W1", quantity := 8, reserved_qty := 0
                reorder_point := none, selling_price := none }]
    sales := [exC6sale, exC6saleR]
    saleItems := [{ sale_id := "S1", inventory_item_id := "I1", medicine_id := "M1"
                    quantity := 2, unit_price := 50, discount_percent := 0
                    discount_amount := 0, tax_percent := 0, tax_amount := 0
                    subtotal := 100, notes := none }]
    movements := [] }

/-- The moment the C6 cancellations run: same calendar day as the sale. -/
def exC6now : DateTime := { year := 2026, month := 8, day := 12, hour := 18, minute := 30 }

/-- State after the first (successful) cancellation in the C6 witness. -/
def exC6db1 : DB :=
  (exC6db.saleItems.filter (fun si => si.sale_id = "S1")).foldl
    (applyCancelItem exC6sale "U")
    { exC6db with sales := updateSaleStatus exC6db.sales "S1" .CANCELLED }

/-- Witness for C6: cancelling the REFUNDED sale fails, and cancelling S1
twice fails the second time with the already-cancelled error. -/
theorem cancelSale_terminal_witness :
    (cancelSale exC6db "S2" "T" "U" exC6now =
      .error (.badRequestException "Cannot cancel a refunded sale")) ∧
    (cancelSale exC6db1 "S1" "T" "U" exC6now =
      .error (.badRequestException "Sale is already cancelled")) :=
  ⟨(cancelSale_terminal exC6db "S2" "T" "U" exC6now exC6saleR (by decide)).2.1 rfl,
   (cancelSale_terminal exC6db "S1" "T" "U" exC6now exC6sale (by decide)).2.2
     exC6db1 rfl⟩

/-! ## Claim C7 -/

/-- C7: a sale whose `created_at` calendar date differs from the current
calendar date cannot be cancelled: `cancelSale` fails with a ForbiddenError
before opening the transaction, so nothing changes (the status stays what it
was).  The second conjunct pins down that the window is the calendar date and
not a rolling 24-hour period: two instants two minutes apart that straddle
midnight are not "same day". -/
theorem cancelSale_same_day_only :
    (∀ (db : DB) (id tenantId userId : String) (now : DateTime) (sale : Sale),
      findSale db id tenantId = some sale →
      sale.status ≠ .CANCELLED → sale.status ≠ .REFUNDED →
      ¬ sameDay sale.created_at now →
      cancelSale db id tenantId userId now =
        .error (.forbiddenException "Can only cancel sales from the same day")) ∧
    ¬ sameDay { year := 2026, month := 8, day := 11, hour := 23, minute := 59 }
              { year := 2026, month := 8, day := 12, hour := 0, minute := 1 } := by
  constructor
  · intro db id tenantId userId now sale hfind h1 h2 hday
    simp [cancelSale, hfind, h1, h2, hday]
  · decide

/-- Fixture sale for claim C7: COMPLETED, created on 2026-08-11. -/
def exC7sale : Sale :=
  { id := "S1", sale_number := "SALE-20260811-0001", warehouse_id := "W1"
    user_id := "U", status := .COMPLETED, payment_method := .CASH
    total_amount := 100, discount_amount := 0, tax_amount := 0, final_amount := 100
    notes := none, tenant_id := "T"
    created_at := { year := 2026, month := 8, day := 11, hour := 23, minute := 59 } }

/-- Fixture database for claim C7. -/
def exC7db : DB :=
  { warehouses := [{ id := "W1", tenant_id := "T", is_active := true }]
    items := [], sales := [exC7sale], saleItems := [], movements := [] }

/-- The moment the C7 cancellation is attempted: the next calendar day,
2 minutes after the sale. -/
def exC7now : DateTime := { year := 2026, month := 8, day := 12, hour := 0, minute := 1 }

/-- Witness for C7: cancelling yesterday's sale is rejected with the
ForbiddenError even though less than 24 hours have elapsed. -/
theorem cancelSale_same_day_only_witness :
    cancelSale exC7db "S1" "T" "U" exC7now =
      .error (.forbiddenException "Can only cancel sales from the same day") :=
  cancelSale_same_day_only.1 exC7db "S1" "T" "U" exC7now exC7sale
    (by decide) (by decide) (by decide) (by decide)

/-! ## Claim C8 -/

/-- An inventory item the low-stock query should report for a tenant: it sits
in one of the tenant's warehouses and its quantity is at or below
`reorder_point ?? 0`. -/
def isLowStock (db : DB) (tenantId : String) (it : InventoryItem) : Prop :=
  (∃ w ∈ db.warehouses, w.tenant_id = tenantId ∧ w.id = it.warehouse_id) ∧
  it.quantity ≤ it.reorder_point.getD 0

instance (db : DB) (t : String) (it : InventoryItem) : Decidable (isLowStock db t it) := by
  unfold isLowStock; infer_instance

theorem lowStockLe_trans (a b c : InventoryItem) :
    lowStockLe a b = true → lowStockLe b c = true → lowStockLe a c = true := by
  intro h1 h2
  unfold lowStockLe at *
  split at h1 <;> split at h2 <;> split <;> simp_all <;> omega

theorem lowStockLe_total (a b : InventoryItem) :
    (lowStockLe a b || lowStockLe b a) = true := by
  unfold lowStockLe
  split <;> split <;> simp_all <;> omega

/-- C8: for every tenant the low-stock query returns exactly the inventory
items of the tenant's warehouses with `quantity ≤ (reorder_point ?? 0)` (as a
permutation of the straightforward filter of the item table), sorted
ascending by quantity with ties broken descending by `reorder_point`
(pairwise `lowStockLe`).  The function reads the database and returns a list;
it performs no mutation by construction. -/
theorem findLowStockItems_spec (db : DB) (tenantId : String) :
    (findLowStockItems db tenantId).Perm
      (db.items.filter (fun it => decide (isLowStock db tenantId it))) ∧
    (findLowStockItems db tenantId).Pairwise (fun a b => lowStockLe a b = true) := by
  have hmem : ∀ it : InventoryItem,
      (it.warehouse_id ∈ (db.warehouses.filter
        (fun w => w.tenant_id = tenantId)).map (·.id)) ↔
      (∃ w ∈ db.warehouses, w.tenant_id = tenantId ∧ w.id = it.warehouse_id) := by
    intro it
    simp [List.mem_map, List.mem_filter]
    constructor
    · rintro ⟨w, ⟨hw, ht⟩, hid⟩
      exact ⟨w, hw, ht, hid⟩
    · rintro ⟨w, hw, ht, hid⟩
      exact ⟨w, ⟨hw, ht⟩, hid⟩
  unfold findLowStockItems
  by_cases hw : (db.warehouses.filter (fun w => w.tenant_id = tenantId)).map (·.id) = []
  · rw [if_pos hw]
    have hnil : db.items.filter (fun it => decide (isLowStock db tenantId it)) = [] := by
      rw [List.filter_eq_nil_iff]
      intro it _
      simp only [decide_eq_true_eq, isLowStock, not_and]
      rintro ⟨w, hmemw, ht, hid⟩
      have : it.warehouse_id ∈ (db.warehouses.filter
          (fun w => w.tenant_id = tenantId)).map (·.id) := (hmem it).mpr ⟨w, hmemw, ht, hid⟩
      rw [hw] at this
      simp at this
    rw [hnil]
    exact ⟨List.Perm.refl _, List.Pairwise.nil⟩
  · rw [if_neg hw]
    constructor
    · refine (List.mergeSort_perm _ _).trans ?_
      rw [List.filter_filter]
      have : (fun it : InventoryItem =>
          decide (it.quantity ≤ it.reorder_point.getD 0) &&
          decide (it.warehouse_id ∈ (db.warehouses.filter
            (fun w => w.tenant_id = tenantId)).map (·.id))) =
          (fun it : InventoryItem => decide (isLowStock db tenantId it)) := by
        funext it
        rw [Bool.eq_iff_iff]
        simp only [Bool.and_eq_true, decide_eq_true_eq]
        unfold isLowStock
        rw [hmem it]
        tauto
      rw [this]
    · exact List.sorted_mergeSort lowStockLe_trans lowStockLe_total _

/-! ## Claim C3 -/

/-- Round half away from zero, following the spec's wording (this definition
is written from the spec, for comparison with the code's `jsRound`). -/
def roundHalfAwayFromZero (y : ℚ) : Int :=
  if y < 0 then -⌊-y + 1/2⌋ else ⌊y + 1/2⌋

/-- Two-decimal rounding with round-half-away-from-zero, following the spec's
wording (for comparison with the code's `round2`). -/
def round2Away (x : ℚ) : ℚ := (roundHalfAwayFromZero (x * 100) : ℚ) / 100

/-- The discount amount of the spec's formula: the override if positive, else
the percentage of the base if positive, else zero. -/
def specDiscount (base : ℚ) (dp da : Option ℚ) : ℚ :=
  if 0 < da.getD 0 then da.getD 0
  else if 0 < dp.getD 0 then base * dp.getD 0 / 100
  else 0

/-- The tax amount of the spec's formula. -/
def specTax (afterDiscount : ℚ) (tp : Option ℚ) : ℚ :=
  if 0 < tp.getD 0 then afterDiscount * tp.getD 0 / 100 else 0

/-- Counterexample to C3 as stated: the outputs are rounded with JS
`Math.round` (half toward +∞), not half-away-from-zero.  For quantity 1,
unit price 0.25, discount-amount override 0.375 (all float-exact and accepted
by the dto validators), the exact subtotal is −0.125; the code stores −0.12
while rounding half away from zero would give −0.13. -/
theorem calculateItemSubtotal_rounding_counterexample :
    (calculateItemSubtotal 1 (1/4) none (some (3/8)) none).subtotal = -12/100 ∧
    round2Away ((1 : ℚ) * (1/4) - (3/8) + 0) = -13/100 ∧
    (calculateItemSubtotal 1 (1/4) none (some (3/8)) none).subtotal ≠
      round2Away ((1 : ℚ) * (1/4) - (3/8) + 0) := by
  refine ⟨?_, ?_, ?_⟩ <;>
    norm_num [calculateItemSubtotal, round2, jsRound, round2Away, roundHalfAwayFromZero]

/-- C3 (amended): the computation follows the spec's formula exactly — base,
discount (override if positive, else percentage, else 0), tax on the
discounted amount — with all three outputs rounded to 2 decimals only at the
end, but with JS `Math.round` (round half toward +∞), which agrees with
round-half-away-from-zero for all nonnegative values; and for q = 2,
p = 15000, dp = 10 the subtotal is 27000.00, the discount 3000, the tax 0. -/
theorem calculateItemSubtotal_spec :
    (∀ (q : Int) (p : ℚ) (dp da tp : Option ℚ),
      calculateItemSubtotal q p dp da tp =
        { subtotal := round2 ((q : ℚ) * p - specDiscount ((q : ℚ) * p) dp da +
            specTax ((q : ℚ) * p - specDiscount ((q : ℚ) * p) dp da) tp)
          discountAmount := round2 (specDiscount ((q : ℚ) * p) dp da)
          taxAmount := round2 (specTax ((q : ℚ) * p - specDiscount ((q : ℚ) * p) dp da) tp) }) ∧
    (∀ x : ℚ, 0 ≤ x → round2 x = round2Away x) ∧
    calculateItemSubtotal 2 15000 (some 10) none none =
      { subtotal := 27000, discountAmount := 3000, taxAmount := 0 } := by
  refine ⟨?_, ?_, ?_⟩
  · intro q p dp da tp
    cases da <;> cases dp <;> cases tp <;>
      simp only [calculateItemSubtotal, specDiscount, specTax, Option.getD_some,
        Option.getD_none, lt_irrefl, if_false]
  · intro x hx
    have h100 : ¬ (x * 100 < 0) := by
      push_neg
      positivity
    unfold round2 round2Away jsRound roundHalfAwayFromZero
    rw [if_neg h100]
  · norm_num [calculateItemSubtotal, round2, jsRound]

/-- Witness for C3's rounding-agreement conjunct at the Scenario-A subtotal:
27000 is nonnegative and both roundings agree on it. -/
theorem calculateItemSubtotal_spec_witness :
    (0 : ℚ) ≤ 27000 ∧ round2 27000 = round2Away 27000 :=
  ⟨by norm_num, calculateItemSubtotal_spec.2.1 27000 (by norm_num)⟩

/-! ## Claim C10 -/

/-- Fixture item for claim C10: plenty of stock, selling price 50. -/
def exC10item : InventoryItem :=
  { id := "I1", medicine_id := "M1", medicine_trade_name := "Aspirin"
    warehouse_id := "W1", quantity := 10, reserved_qty := 0
    reorder_point := none, selling_price := some 50 }

/-- Fixture database for claim C10. -/
def exC10db : DB :=
  { warehouses := [{ id := "W1", tenant_id := "T", is_active := true }]
    items := [exC10item]
    sales := [], saleItems := [], movements := [] }

/-- The C10 line item: 1 unit at price 50 with a discount-amount override of
80 — larger than the base amount, which no validator rejects. -/
def exC10line : CreateSaleItemDto :=
  { inventory_item_id := "I1", quantity := 1, unit_price := some 50
    discount_percent := none, discount_amount := some 80, tax_percent := none
    notes := none }

/-- The C10 sale request. -/
def exC10dto : CreateSaleDto :=
  { warehouse_id := "W1", payment_method := .CASH, items := [exC10line]
    notes := none }

/-- Creation time used in the C10 run. -/
def exC10now : DateTime := { year := 2026, month := 8, day := 12, hour := 10, minute := 0 }

/-- C10: there is a sale-creation input the service accepts whose stored line
subtotal is negative: the discount-amount override (80) exceeds the base
amount (1 × 50 = 50), no check compares them, and the persisted sale item has
subtotal −30. -/
theorem createSale_negative_subtotal :
    ∃ db1, createSale exC10db exC10dto "T" "U" exC10now "S1" "SALE-20260812-0001" =
        .ok db1 ∧
      ∃ si ∈ db1.saleItems, si.subtotal < 0 := by
  have hf : findItemInWarehouse exC10db "I1" "W1" = some exC10item := by decide
  have h1 : validateOne exC10db "W1" exC10line = .ok (mkValidatedItem exC10line exC10item) :=
    validateOne_eq_ok hf (by decide) (by norm_num [exC10line, exC10item])
  have hv : validateSaleItems exC10db "W1" [exC10line] =
      .ok [mkValidatedItem exC10line exC10item] := by
    simp [validateSaleItems, h1]
  have hw : findWarehouse exC10db "W1" "T" =
      some { id := "W1", tenant_id := "T", is_active := true } := by decide
  have hok := @createSale_ok_eq exC10db exC10dto "T" "U" exC10now
    "S1" "SALE-20260812-0001" { id := "W1", tenant_id := "T", is_active := true }
    [mkValidatedItem exC10line exC10item] hw rfl hv
  refine ⟨_, hok, ?_⟩
  rw [applySaleItems_saleItems]
  refine ⟨mkSaleItem "S1" (mkValidatedItem exC10line exC10item), by simp, ?_⟩
  norm_num [mkSaleItem, mkValidatedItem, calculateItemSubtotal, round2, jsRound,
    exC10line, exC10item]

/-! ### Helper lemmas: the all-lines-pass shape of createSale -/

theorem map_eq_of_forall₂ {α β γ : Type} {R : α → β → Prop}
    {l₁ : List α} {l₂ : List β} (h : List.Forall₂ R l₁ l₂)
    (f : β → γ) (g : α → γ) (hfg : ∀ a b, R a b → f b = g a) :
    l₂.map f = l₁.map g := by
  induction h with
  | nil => rfl
  | cons hab _ ih => simp [hfg _ _ hab, ih]

theorem createSale_error_of_validate {db : DB} {dto : CreateSaleDto}
    {tenantId userId : String} {now : DateTime} {saleId saleNumber : String}
    {w : Warehouse} {e : AppError}
    (hw : findWarehouse db dto.warehouse_id tenantId = some w)
    (hact : w.is_active = true)
    (hv : validateSaleItems db dto.warehouse_id dto.items = .error e) :
    createSale db dto tenantId userId now saleId saleNumber = .error e := by
  simp [createSale, hw, hact, hv]

theorem createSale_all_pass_spec (db : DB) (dto : CreateSaleDto)
    (tenantId userId : String) (now : DateTime) (saleId saleNumber : String)
    (w : Warehouse)
    (hw : findWarehouse db dto.warehouse_id tenantId = some w)
    (hact : w.is_active = true)
    (hpass : ∀ l ∈ dto.items, linePasses db dto.warehouse_id l) :
    ∃ db1 vs, createSale db dto tenantId userId now saleId saleNumber = .ok db1 ∧
      List.Forall₂ (fun (l : CreateSaleItemDto) (v : ValidatedItem) =>
        v.item = l ∧ v.inventoryItem.id = l.inventory_item_id) dto.items vs ∧
      db1.movements = db.movements ++
        vs.map (mkOutMovement dto.warehouse_id saleId saleNumber userId) ∧
      db1.saleItems = db.saleItems ++ vs.map (mkSaleItem saleId) ∧
      db1.sales = db.sales ++ [mkSale dto tenantId userId now saleId saleNumber vs] ∧
      (∀ iid, qtyOf db1 iid = (qtyOf db iid).map (fun q =>
        q - deltaSum (dto.items.map (fun l => (l.inventory_item_id, l.quantity))) iid)) := by
  obtain ⟨vs, hv, hrel⟩ := validateSaleItems_ok_of_passes dto.items hpass
  have hrel' : List.Forall₂ (fun (l : CreateSaleItemDto) (v : ValidatedItem) =>
      v.item = l ∧ v.inventoryItem.id = l.inventory_item_id) dto.items vs := by
    refine hrel.imp ?_
    intro l v hlv
    obtain ⟨hfind, hitem, -, -, -⟩ := validateOne_ok_inv hlv
    have hid : v.inventoryItem.id = l.inventory_item_id := by
      have := List.find?_some hfind
      simp at this
      exact this.1
    exact ⟨hitem, hid⟩
  refine ⟨_, vs, createSale_ok_eq hw hact hv, hrel', ?_, ?_, ?_, ?_⟩
  · rw [applySaleItems_movements]
  · rw [applySaleItems_saleItems]
  · rw [applySaleItems_sales]
  · intro iid
    rw [qtyOf_def, qtyOf_def, applySaleItems_items, qtyOfItems_applyDeltas]
    have hmaps : vs.map (fun v => (v.inventoryItem.id, -v.item.quantity)) =
        (dto.items.map (fun l => (l.inventory_item_id, l.quantity))).map
          (fun p => (p.1, -p.2)) := by
      rw [List.map_map]
      exact map_eq_of_forall₂ hrel' _ _
        (fun l v hlv => by simp [hlv.1, hlv.2])
    rw [hmaps, deltaSum_map_neg]
    cases qtyOfItems db.items iid <;> simp [sub_eq_add_neg]

/-! ## Claim C1 -/

/-- Fixture item for the C1 counterexample: quantity 10 of which 5 are
reserved, so available stock is 5. -/
def exC1item : InventoryItem :=
  { id := "I1", medicine_id := "M1", medicine_trade_name := "Analgin"
    warehouse_id := "W1", quantity := 10, reserved_qty := 5
    reorder_point := none, selling_price := none }

/-- Fixture database for the C1 counterexample. -/
def exC1db : DB :=
  { warehouses := [{ id := "W1", tenant_id := "T", is_active := true }]
    items := [exC1item]
    sales := [], saleItems := [], movements := [] }

/-- An OUT stock-movement request for 7 units — more than the available 5. -/
def exC1dto : CreateStockMovementDto :=
  { inventory_item_id := "I1", warehouse_id := "W1"
    movement_type := .OUT, quantity := 7
    reference_type := none, reference_id := none, notes := none }

/-- Counterexample to C1 as stated: an OUT stock-movement request for 7 units
when available stock (quantity − reserved_qty = 10 − 5 = 5) is below the
request does NOT fail — `createStockMovement` ignores `reserved_qty` and only
rejects a negative resulting quantity — so the operation succeeds and leaves
quantity 3 (= 10 − 7), below the reserved 5. -/
theorem stockMovement_ignores_reserved_counterexample :
    (exC1item.quantity - exC1item.reserved_qty < exC1dto.quantity) ∧
    ∃ db', createStockMovement exC1db exC1dto "T" "U" = .ok db' ∧
      qtyOf db' "I1" = some 3 := by
  refine ⟨by decide, ?_⟩
  exact ⟨_, rfl, by decide⟩

/-- C1 (amended): sale creation checks every line against available stock
(`quantity − reserved_qty`) read from the pre-sale snapshot — a failing line
aborts the whole request with the InsufficientStockError naming the medicine,
the available count and the requested count, and nothing changes; when every
line passes (items resolve, stock suffices, resolved prices are positive) the
sale is created, each line's item quantity is decremented by the requested
amount, and exactly one OUT movement per line is emitted.  An OUT
stock-movement request, by contrast, ignores `reserved_qty`: it fails — with
a bare "Insufficient stock" error naming nothing — exactly when
`quantity − requested < 0`, and otherwise decrements the quantity and emits
one OUT movement. -/
theorem deduction_insufficient_stock_spec :
    (∀ (db : DB) (dto : CreateSaleDto) (tenantId userId : String) (now : DateTime)
       (saleId saleNumber : String) (w : Warehouse)
       (pre post : List CreateSaleItemDto) (line : CreateSaleItemDto)
       (inv : InventoryItem),
      dto.items = pre ++ line :: post →
      findWarehouse db dto.warehouse_id tenantId = some w →
      w.is_active = true →
      (∀ l ∈ pre, linePasses db dto.warehouse_id l) →
      findItemInWarehouse db line.inventory_item_id dto.warehouse_id = some inv →
      inv.quantity - inv.reserved_qty < line.quantity →
      createSale db dto tenantId userId now saleId saleNumber =
        .error (.badRequestException (insufficientStockMsg inv.medicine_trade_name
          (inv.quantity - inv.reserved_qty) line.quantity))) ∧
    (∀ (db : DB) (dto : CreateSaleDto) (tenantId userId : String) (now : DateTime)
       (saleId saleNumber : String) (w : Warehouse),
      findWarehouse db dto.warehouse_id tenantId = some w →
      w.is_active = true →
      (∀ l ∈ dto.items, linePasses db dto.warehouse_id l) →
      ∃ db1 vs, createSale db dto tenantId userId now saleId saleNumber = .ok db1 ∧
        List.Forall₂ (fun (l : CreateSaleItemDto) (v : ValidatedItem) =>
          v.item = l ∧ v.inventoryItem.id = l.inventory_item_id) dto.items vs ∧
        db1.movements = db.movements ++
          vs.map (mkOutMovement dto.warehouse_id saleId saleNumber userId) ∧
        (∀ v ∈ vs,
          (mkOutMovement dto.warehouse_id saleId saleNumber userId v).movement_type =
            .OUT ∧
          (mkOutMovement dto.warehouse_id saleId saleNumber userId v).quantity =
            v.item.quantity) ∧
        (∀ iid, qtyOf db1 iid = (qtyOf db iid).map (fun q =>
          q - deltaSum (dto.items.map (fun l => (l.inventory_item_id, l.quantity))) iid))) ∧
    (∀ (db : DB) (dto : CreateStockMovementDto) (tenantId userId : String)
       (w : Warehouse) (item : InventoryItem),
      findWarehouse db dto.warehouse_id tenantId = some w →
      findItemInWarehouse db dto.inventory_item_id dto.warehouse_id = some item →
      dto.movement_type = .OUT →
      item.quantity - dto.quantity < 0 →
      createStockMovement db dto tenantId userId =
        .error (.badRequestException "Insufficient stock")) ∧
    (∀ (db : DB) (dto : CreateStockMovementDto) (tenantId userId : String)
       (w : Warehouse) (item : InventoryItem),
      findWarehouse db dto.warehouse_id tenantId = some w →
      findItemInWarehouse db dto.inventory_item_id dto.warehouse_id = some item →
      dto.movement_type = .OUT →
      0 ≤ item.quantity - dto.quantity →
      createStockMovement db dto tenantId userId =
        .ok { db with
              items := updateItemQty db.items item.id
                (fun _ => item.quantity - dto.quantity)
              movements := db.movements ++ [mkDtoMovement dto userId] }) := by
  refine ⟨?_, ?_, ?_, ?_⟩
  · intro db dto tenantId userId now saleId saleNumber w pre post line inv
      hsplit hw hact hpass hf hlt
    have herr := validateOne_insufficient hf hlt
    have hv := validateSaleItems_error_after pre post hpass herr
    rw [← hsplit] at hv
    exact createSale_error_of_validate hw hact hv
  · intro db dto tenantId userId now saleId saleNumber w hw hact hpass
    obtain ⟨db1, vs, hok, hrel, hmov, -, -, hqty⟩ :=
      createSale_all_pass_spec db dto tenantId userId now saleId saleNumber w hw hact hpass
    exact ⟨db1, vs, hok, hrel, hmov, fun v _ => ⟨rfl, rfl⟩, hqty⟩
  · intro db dto tenantId userId w item hw hi hty hlt
    have hne : dto.movement_type ≠ .IN := by simp [hty]
    simp [createStockMovement, hw, hi, hne, hty, hlt]
  · intro db dto tenantId userId w item hw hi hty hge
    have hne : dto.movement_type ≠ .IN := by simp [hty]
    have hnlt : ¬ (item.quantity - dto.quantity < 0) := not_lt.mpr hge
    simp [createStockMovement, hw, hi, hne, hty, hnlt]

/-- Fixture database for the C1 witness: available stock 10, request 15
(Scenario B), plus an OUT movement request of 7 against quantity 5. -/
def exC1wdb : DB :=
  { warehouses := [{ id := "W1", tenant_id := "T", is_active := true }]
    items := [{ id := "I1", medicine_id := "M1", medicine_trade_name := "Analgin"
                warehouse_id := "W1", quantity := 10, reserved_qty := 0
                reorder_point := none, selling_price := some 50 }]
    sales := [], saleItems := [], movements := [] }

/-- The C1 witness sale request: 15 units of an item with 10 available. -/
def exC1wdto : CreateSaleDto :=
  { warehouse_id := "W1", payment_method := .CASH
    items := [{ inventory_item_id := "I1", quantity := 15, unit_price := some 50
                discount_percent := none, discount_amount := none
                tax_percent := none, notes := none }]
    notes := none }

/-- The C1 witness OUT movement request: 15 units against quantity 10. -/
def exC1wmov : CreateStockMovementDto :=
  { inventory_item_id := "I1", warehouse_id := "W1"
    movement_type := .OUT, quantity := 15
    reference_type := none, reference_id := none, notes := none }

/-- Witness for C1 (amended), Scenario B: selling 15 units with 10 available
fails naming the medicine, available = 10, requested = 15; and an OUT
movement of 15 against quantity 10 fails with the bare error. -/
theorem deduction_insufficient_stock_spec_witness :
    (createSale exC1wdb exC1wdto "T" "U"
        { year := 2026, month := 8, day := 12, hour := 10, minute := 0 }
        "S1" "SALE-20260812-0001" =
      .error (.badRequestException (insufficientStockMsg "Analgin" 10 15))) ∧
    (createStockMovement exC1wdb exC1wmov "T" "U" =
      .error (.badRequestException "Insufficient stock")) :=
  ⟨deduction_insufficient_stock_spec.1 exC1wdb exC1wdto "T" "U"
      { year := 2026, month := 8, day := 12, hour := 10, minute := 0 }
      "S1" "SALE-20260812-0001"
      { id := "W1", tenant_id := "T", is_active := true }
      [] [] (exC1wdto.items.get ⟨0, by decide⟩)
      { id := "I1", medicine_id := "M1", medicine_trade_name := "Analgin"
        warehouse_id := "W1", quantity := 10, reserved_qty := 0
        reorder_point := none, selling_price := some 50 }
      (by decide) (by decide) rfl (by simp) (by decide) (by decide),
   deduction_insufficient_stock_spec.2.2.1 exC1wdb exC1wmov "T" "U"
      { id := "W1", tenant_id := "T", is_active := true }
      { id := "I1", medicine_id := "M1", medicine_trade_name := "Analgin"
        warehouse_id := "W1", quantity := 10, reserved_qty := 0
        reorder_point := none, selling_price := some 50 }
      (by decide) (by decide) rfl (by decide)⟩

/-! ### Helper lemmas: the cancelSale success shape, componentwise -/

theorem cancelSale_success_spec {db : DB} {id tenantId userId : String}
    {now : DateTime} {sale : Sale}
    (hfind : findSale db id tenantId = some sale)
    (h1 : sale.status ≠ .CANCELLED) (h2 : sale.status ≠ .REFUNDED)
    (hd : sameDay sale.created_at now) :
    ∃ db1, cancelSale db id tenantId userId now = .ok db1 ∧
      db1.sales = updateSaleStatus db.sales id .CANCELLED ∧
      db1.saleItems = db.saleItems ∧
      db1.movements = db.movements ++
        (db.saleItems.filter (fun si => si.sale_id = sale.id)).map
          (mkReturnMovement sale userId) ∧
      (∀ iid, qtyOf db1 iid = (qtyOf db iid).map (fun q =>
        q + deltaSum ((db.saleItems.filter (fun si => si.sale_id = sale.id)).map
          (fun si => (si.inventory_item_id, si.quantity))) iid)) := by
  refine ⟨_, cancelSale_ok_eq hfind h1 h2 hd, ?_, ?_, ?_, ?_⟩
  · rw [cancelFold_sales]
  · rw [cancelFold_saleItems]
  · rw [cancelFold_movements]
  · intro iid
    rw [qtyOf_def, qtyOf_def, cancelFold_items, qtyOfItems_applyDeltas]

/-! ## Claim C2 -/

/-- Fixture item for the C2 counterexample: quantity 10. -/
def exC2item : InventoryItem :=
  { id := "I1", medicine_id := "M1", medicine_trade_name := "Analgin"
    warehouse_id := "W1", quantity := 10, reserved_qty := 0
    reorder_point := none, selling_price := none }

/-- Fixture database for the C2 counterexample. -/
def exC2db : DB :=
  { warehouses := [{ id := "W1", tenant_id := "T", is_active := true }]
    items := [exC2item]
    sales := [], saleItems := [], movements := [] }

/-- A recorded ADJUSTMENT movement with dto quantity 12 against current
quantity 10. -/
def exC2dto : CreateStockMovementDto :=
  { inventory_item_id := "I1", warehouse_id := "W1"
    movement_type := .ADJUSTMENT, quantity := 12
    reference_type := none, reference_id := none, notes := none }

/-- Counterexample to C2 as stated: recording an ADJUSTMENT movement with
quantity 12 against an item at quantity 10 succeeds and changes the quantity
by magnitude 2 (10 → 12), yet the single movement row written carries
quantity 12 — the dto value, not the absolute magnitude of the change. -/
theorem stockMovement_adjustment_magnitude_counterexample :
    ∃ db', createStockMovement exC2db exC2dto "T" "U" = .ok db' ∧
      qtyOf exC2db "I1" = some 10 ∧
      qtyOf db' "I1" = some 12 ∧
      db'.movements = exC2db.movements ++ [mkDtoMovement exC2dto "U"] ∧
      (mkDtoMovement exC2dto "U").quantity = 12 ∧
      (12 : Int) ≠ |(12 : Int) - 10| := by
  exact ⟨_, rfl, by decide, by decide, by decide, by decide, by decide⟩

/-- C2 (amended): every successful quantity-changing operation writes exactly
one `StockMovement` in the same operation with `quantity` equal to the
absolute magnitude of the change — for sale-item deduction (one OUT per line,
of that line's quantity), cancellation restore (one RETURN per line, of that
line's quantity), stock adjustment (one ADJUSTMENT of `|new − old|`), and
recorded IN/OUT movements (one row of the dto quantity, which is the
magnitude applied) — except recorded ADJUSTMENT movements, whose single row
carries the dto quantity (the new absolute quantity), not the magnitude of
the change. -/
theorem quantity_movement_pairing_spec :
    (∀ (db : DB) (dto : CreateSaleDto) (tenantId userId : String) (now : DateTime)
       (saleId saleNumber : String) (w : Warehouse),
      findWarehouse db dto.warehouse_id tenantId = some w →
      w.is_active = true →
      (∀ l ∈ dto.items, linePasses db dto.warehouse_id l) →
      ∃ (db1 : DB) (vs : List ValidatedItem),
        createSale db dto tenantId userId now saleId saleNumber = .ok db1 ∧
        db1.movements = db.movements ++
          vs.map (mkOutMovement dto.warehouse_id saleId saleNumber userId) ∧
        (∀ v ∈ vs,
          (mkOutMovement dto.warehouse_id saleId saleNumber userId v).quantity =
            v.item.quantity) ∧
        (∀ iid, qtyOf db1 iid = (qtyOf db iid).map (fun q =>
          q - deltaSum (dto.items.map (fun l => (l.inventory_item_id, l.quantity))) iid))) ∧
    (∀ (db : DB) (id tenantId userId : String) (now : DateTime) (sale : Sale),
      findSale db id tenantId = some sale →
      sale.status ≠ .CANCELLED → sale.status ≠ .REFUNDED →
      sameDay sale.created_at now →
      ∃ db1, cancelSale db id tenantId userId now = .ok db1 ∧
        db1.movements = db.movements ++
          (db.saleItems.filter (fun si => si.sale_id = sale.id)).map
            (mkReturnMovement sale userId) ∧
        (∀ si ∈ db.saleItems.filter (fun si => si.sale_id = sale.id),
          (mkReturnMovement sale userId si).movement_type = .RETURN ∧
          (mkReturnMovement sale userId si).quantity = si.quantity) ∧
        (∀ iid, qtyOf db1 iid = (qtyOf db iid).map (fun q =>
          q + deltaSum ((db.saleItems.filter (fun si => si.sale_id = sale.id)).map
            (fun si => (si.inventory_item_id, si.quantity))) iid))) ∧
    (∀ (db : DB) (id : String) (dto : AdjustStockDto) (tenantId userId : String)
       (item : InventoryItem),
      findInventoryItemById db id tenantId = some item →
      dto.quantity ≠ item.quantity →
      ∃ db', adjustStock db id dto tenantId userId = .ok db' ∧
        ∃ mov, db'.movements = db.movements ++ [mov] ∧
          mov.movement_type = .ADJUSTMENT ∧
          mov.quantity = |dto.quantity - item.quantity|) ∧
    (∀ (db : DB) (dto : CreateStockMovementDto) (tenantId userId : String)
       (w : Warehouse) (item : InventoryItem),
      findWarehouse db dto.warehouse_id tenantId = some w →
      findItemInWarehouse db dto.inventory_item_id dto.warehouse_id = some item →
      (dto.movement_type = .IN →
        createStockMovement db dto tenantId userId =
          .ok { db with
                items := updateItemQty db.items item.id
                  (fun _ => item.quantity + dto.quantity)
                movements := db.movements ++ [mkDtoMovement dto userId] }) ∧
      (dto.movement_type = .OUT → 0 ≤ item.quantity - dto.quantity →
        createStockMovement db dto tenantId userId =
          .ok { db with
                items := updateItemQty db.items item.id
                  (fun _ => item.quantity - dto.quantity)
                movements := db.movements ++ [mkDtoMovement dto userId] }) ∧
      ((mkDtoMovement dto userId).quantity = dto.quantity)) ∧
    (∀ (db : DB) (dto : CreateStockMovementDto) (tenantId userId : String)
       (w : Warehouse) (item : InventoryItem),
      findWarehouse db dto.warehouse_id tenantId = some w →
      findItemInWarehouse db dto.inventory_item_id dto.warehouse_id = some item →
      dto.movement_type = .ADJUSTMENT →
      createStockMovement db dto tenantId userId =
        .ok { db with
              items := updateItemQty db.items item.id (fun _ => dto.quantity)
              movements := db.movements ++ [mkDtoMovement dto userId] }) := by
  refine ⟨?_, ?_, ?_, ?_, ?_⟩
  · intro db dto tenantId userId now saleId saleNumber w hw hact hpass
    obtain ⟨db1, vs, hok, -, hmov, -, -, hqty⟩ :=
      createSale_all_pass_spec db dto tenantId userId now saleId saleNumber w hw hact hpass
    exact ⟨db1, vs, hok, hmov, fun v _ => rfl, hqty⟩
  · intro db id tenantId userId now sale hfind h1 h2 hd
    obtain ⟨db1, hok, -, -, hmov, hqty⟩ := cancelSale_success_spec hfind h1 h2 hd
    exact ⟨db1, hok, hmov, fun si _ => ⟨rfl, rfl⟩, hqty⟩
  · intro db id dto tenantId userId item hfind hne
    have hdiff : ¬ (dto.quantity - item.quantity = 0) := by omega
    simp only [adjustStock, hfind, hdiff, if_neg hdiff]
    exact ⟨_, rfl, _, rfl, rfl, rfl⟩
  · intro db dto tenantId userId w item hw hi
    refine ⟨?_, ?_, rfl⟩
    · intro hty
      simp [createStockMovement, hw, hi, hty]
    · intro hty hge
      have hne : dto.movement_type ≠ .IN := by simp [hty]
      have hnlt : ¬ (item.quantity - dto.quantity < 0) := not_lt.mpr hge
      simp [createStockMovement, hw, hi, hne, hty, hnlt]
  · intro db dto tenantId userId w item hw hi hty
    have hne1 : dto.movement_type ≠ .IN := by simp [hty]
    have hne2 : dto.movement_type ≠ .OUT := by simp [hty]
    simp [createStockMovement, hw, hi, hne1, hne2, hty]

/-- Witness for C2 (amended): on the C5 fixture, adjusting 50 → 60 pairs the
change with exactly one ADJUSTMENT movement of magnitude 10, and on the C2
fixture a recorded IN movement of 5 units writes one movement row of
quantity 5 while raising the quantity from 10 to 15. -/
theorem quantity_movement_pairing_spec_witness :
    (∃ db', adjustStock exC5db "I1" { quantity := 60, notes := none } "T" "U" = .ok db' ∧
      ∃ mov, db'.movements = exC5db.movements ++ [mov] ∧
        mov.movement_type = .ADJUSTMENT ∧
        mov.quantity = |(60 : Int) - 50|) ∧
    (createStockMovement exC2db
        { exC2dto with movement_type := .IN, quantity := 5 } "T" "U" =
      .ok { exC2db with
            items := updateItemQty exC2db.items "I1" (fun _ => 10 + 5)
            movements := exC2db.movements ++
              [mkDtoMovement { exC2dto with movement_type := .IN, quantity := 5 } "U"] }) :=
  ⟨quantity_movement_pairing_spec.2.2.1 exC5db "I1" { quantity := 60, notes := none }
      "T" "U" exC5item (by decide) (by decide),
   (quantity_movement_pairing_spec.2.2.2.1 exC2db
      { exC2dto with movement_type := .IN, quantity := 5 } "T" "U"
      { id := "W1", tenant_id := "T", is_active := true } exC2item
      (by decide) (by decide)).1 rfl⟩

/-! ## Claim C4 -/

/-- C4: a sale created and cancelled the same day round-trips the inventory:
cancellation succeeds, the sale's status becomes CANCELLED, every inventory
quantity (in particular each line item's) returns exactly to its pre-sale
value, and one RETURN movement of that line's quantity is written per line
item.  The freshness hypotheses say the generated sale id is new, which the
database's uuid generation guarantees. -/
theorem createSale_cancelSale_roundtrip (db : DB) (dto : CreateSaleDto)
    (tenantId userId userId2 : String) (now : DateTime)
    (saleId saleNumber : String) (db1 : DB)
    (hfreshSale : ∀ s ∈ db.sales, s.id ≠ saleId)
    (hfreshItems : ∀ si ∈ db.saleItems, si.sale_id ≠ saleId)
    (hcreate : createSale db dto tenantId userId now saleId saleNumber = .ok db1) :
    ∃ db2, cancelSale db1 saleId tenantId userId2 now = .ok db2 ∧
      saleStatusOf db2 saleId = some .CANCELLED ∧
      (∀ iid, qtyOf db2 iid = qtyOf db iid) ∧
      ∃ sale, findSale db1 saleId tenantId = some sale ∧
        db2.movements = db1.movements ++
          (db1.saleItems.filter (fun si => si.sale_id = saleId)).map
            (mkReturnMovement sale userId2) ∧
        (∀ si ∈ db1.saleItems.filter (fun si => si.sale_id = saleId),
          (mkReturnMovement sale userId2 si).movement_type = .RETURN ∧
          (mkReturnMovement sale userId2 si).quantity = si.quantity) := by
  obtain ⟨w, vs, hw, hact, hv, hdb1⟩ := createSale_ok_inv hcreate
  have hsales1 : db1.sales =
      db.sales ++ [mkSale dto tenantId userId now saleId saleNumber vs] := by
    rw [hdb1, applySaleItems_sales]
  have hitems1 : db1.items =
      applyDeltas db.items (vs.map (fun v => (v.inventoryItem.id, -v.item.quantity))) := by
    rw [hdb1, applySaleItems_items]
  have hsitems1 : db1.saleItems = db.saleItems ++ vs.map (mkSaleItem saleId) := by
    rw [hdb1, applySaleItems_saleItems]
  have hnone : db.sales.find? (fun s => s.id = saleId ∧ s.tenant_id = tenantId) = none :=
    List.find?_eq_none.mpr (fun s hs => by simp [hfreshSale s hs])
  have hfind1 : findSale db1 saleId tenantId =
      some (mkSale dto tenantId userId now saleId saleNumber vs) := by
    unfold findSale
    rw [hsales1, List.find?_append, hnone]
    simp [mkSale]
  have hlines : db1.saleItems.filter (fun si => si.sale_id = saleId) =
      vs.map (mkSaleItem saleId) := by
    rw [hsitems1, List.filter_append]
    have h1 : db.saleItems.filter (fun si => si.sale_id = saleId) = [] :=
      List.filter_eq_nil_iff.mpr (fun si hsi => by simp [hfreshItems si hsi])
    have h2 : (vs.map (mkSaleItem saleId)).filter (fun si => si.sale_id = saleId) =
        vs.map (mkSaleItem saleId) :=
      List.filter_eq_self.mpr (fun si hsi => by
        obtain ⟨v, -, hvsi⟩ := List.mem_map.mp hsi
        simp [← hvsi, mkSaleItem])
    rw [h1, h2]
    rfl
  obtain ⟨db2, hok, hsales2, -, hmov2, hqty2⟩ :=
    cancelSale_success_spec hfind1 (by simp [mkSale]) (by simp [mkSale])
      ⟨rfl, rfl, rfl⟩
  simp only [show (mkSale dto tenantId userId now saleId saleNumber vs).id = saleId
    from rfl] at hmov2 hqty2
  refine ⟨db2, hok, ?_, ?_, ?_⟩
  · unfold saleStatusOf
    rw [hsales2, find?_updateSaleStatus, hsales1, List.find?_append]
    have hnone' : db.sales.find? (fun s => s.id = saleId) = none :=
      List.find?_eq_none.mpr (fun s hs => by simp [hfreshSale s hs])
    rw [hnone']
    simp [mkSale]
  · intro iid
    rw [hqty2 iid, hlines]
    have hq1 : qtyOf db1 iid = (qtyOf db iid).map (fun q =>
        q + deltaSum (vs.map (fun v => (v.inventoryItem.id, -v.item.quantity))) iid) := by
      rw [qtyOf_def, qtyOf_def, hitems1, qtyOfItems_applyDeltas]
    rw [hq1]
    have hpairs : (vs.map (mkSaleItem saleId)).map
        (fun si => (si.inventory_item_id, si.quantity)) =
        vs.map (fun v => (v.inventoryItem.id, v.item.quantity)) := by
      rw [List.map_map]
      rfl
    have hneg : vs.map (fun v => (v.inventoryItem.id, -v.item.quantity)) =
        (vs.map (fun v => (v.inventoryItem.id, v.item.quantity))).map
          (fun p => (p.1, -p.2)) := by
      rw [List.map_map]
      rfl
    rw [hpairs, hneg, deltaSum_map_neg]
    cases qtyOf db iid <;> simp
  · refine ⟨mkSale dto tenantId userId now saleId saleNumber vs, hfind1, ?_, ?_⟩
    · rw [hmov2, hlines]
    · intro si _
      exact ⟨rfl, rfl⟩

/-- Fixture item for the C4 witness: Scenario A stock, quantity 10. -/
def exC4item : InventoryItem :=
  { id := "I1", medicine_id := "M1", medicine_trade_name := "Paracetamol"
    warehouse_id := "W1", quantity := 10, reserved_qty := 0
    reorder_point := none, selling_price := some 15000 }

/-- Fixture database for the C4 witness. -/
def exC4db : DB :=
  { warehouses := [{ id := "W1", tenant_id := "T", is_active := true }]
    items := [exC4item]
    sales := [], saleItems := [], movements := [] }

/-- The C4 witness line: sell 2 units at 15000 with 10 % discount
(Scenario A). -/
def exC4line : CreateSaleItemDto :=
  { inventory_item_id := "I1", quantity := 2, unit_price := some 15000
    discount_percent := some 10, discount_amount := none, tax_percent := none
    notes := none }

/-- The C4 witness sale request. -/
def exC4dto : CreateSaleDto :=
  { warehouse_id := "W1", payment_method := .CASH, items := [exC4line]
    notes := none }

/-- Creation (and cancellation) time of the C4 witness sale. -/
def exC4now : DateTime := { year := 2026, month := 8, day := 12, hour := 10, minute := 0 }

/-- The validated line of the C4 witness sale. -/
def exC4vs : List ValidatedItem := [mkValidatedItem exC4line exC4item]

/-- State after the C4 witness sale is created. -/
def exC4db1 : DB :=
  applySaleItems "W1" "S1" "SALE-20260812-0001" "U"
    { exC4db with
      sales := exC4db.sales ++ [mkSale exC4dto "T" "U" exC4now "S1" "SALE-20260812-0001" exC4vs] }
    exC4vs

/-- Witness for C4: the Scenario A sale, created then cancelled the same day,
restores every quantity and writes the RETURN movements. -/
theorem createSale_cancelSale_roundtrip_witness :
    ∃ db2, cancelSale exC4db1 "S1" "T" "U" exC4now = .ok db2 ∧
      saleStatusOf db2 "S1" = some .CANCELLED ∧
      (∀ iid, qtyOf db2 iid = qtyOf exC4db iid) ∧
      ∃ sale, findSale exC4db1 "S1" "T" = some sale ∧
        db2.movements = exC4db1.movements ++
          (exC4db1.saleItems.filter (fun si => si.sale_id = "S1")).map
            (mkReturnMovement sale "U") ∧
        (∀ si ∈ exC4db1.saleItems.filter (fun si => si.sale_id = "S1"),
          (mkReturnMovement sale "U" si).movement_type = .RETURN ∧
          (mkReturnMovement sale "U" si).quantity = si.quantity) := by
  have hf : findItemInWarehouse exC4db "I1" "W1" = some exC4item := by decide
  have h1 : validateOne exC4db "W1" exC4line = .ok (mkValidatedItem exC4line exC4item) :=
    validateOne_eq_ok hf (by decide) (by norm_num [exC4line, exC4item])
  have hv : validateSaleItems exC4db "W1" [exC4line] = .ok exC4vs := by
    simp [validateSaleItems, h1, exC4vs]
  have hw : findWarehouse exC4db "W1" "T" =
      some { id := "W1", tenant_id := "T", is_active := true } := by decide
  have hcreate : createSale exC4db exC4dto "T" "U" exC4now "S1" "SALE-20260812-0001" =
      .ok exC4db1 :=
    createSale_ok_eq hw rfl hv
  exact createSale_cancelSale_roundtrip exC4db exC4dto "T" "U" "U" exC4now
    "S1" "SALE-20260812-0001" exC4db1 (by simp [exC4db]) (by simp [exC4db]) hcreate

end Dorixona
